import Mathlib

/-!
Verification development for the SmartDoor access-control core.

The Python sources under `services/` and `ui/` are embedded shallowly:
text lines are `List Char` (Python `str` operations are re-implemented
over char lists so that concrete inputs evaluate inside the kernel),
stateful objects become explicit state records, background callbacks and
exceptions become explicit `Except` values, and wall-clock instants are
integers (milliseconds or seconds as noted).  Each definition cites the
source function it translates.
-/

/-- A text line, as exchanged on the serial link.  Python `str`. -/
abbrev Line := List Char

/-- View a Lean string literal as a line (used only to write concrete
protocol text; `String.data` is the underlying char list). -/
def chars (s : String) : Line := s.data

/-- Python `hay.startswith(needle)` on char lists. -/
def startsWithL : Line → Line → Bool
  | _, [] => true
  | [], _ :: _ => false
  | c :: cs, d :: ds => (c = d : Bool) && startsWithL cs ds

/-- Python `needle in hay` (substring containment). -/
def containsSubL : Line → Line → Bool
  | [], needle => startsWithL [] needle
  | c :: t, needle => startsWithL (c :: t) needle || containsSubL t needle

/-- ASCII lower-casing of a single code point, as a `Nat`.  The protocol
keywords compared case-insensitively are pure ASCII, so this agrees with
Python `str.lower` wherever a comparison against them can succeed. -/
def lowerNat (n : Nat) : Nat := if 65 ≤ n ∧ n ≤ 90 then n + 32 else n

/-- Python `hay.lower().startswith(needle)` for an already-lowercase
ASCII `needle`. -/
def startsWithCI : Line → Line → Bool
  | _, [] => true
  | [], _ :: _ => false
  | c :: cs, d :: ds => (lowerNat c.toNat = lowerNat d.toNat : Bool) && startsWithCI cs ds

/-- Whitespace recognized by Python `str.strip()`. -/
def wsChar (c : Char) : Bool :=
  c = ' ' || c = '\t' || c = '\n' || c = '\x0d' || c = '\x0b' || c = '\x0c'

/-- Python `s.strip()`. -/
def stripL (l : Line) : Line :=
  ((l.dropWhile wsChar).reverse.dropWhile wsChar).reverse

/-- Value of a digit string. -/
def digitsToNat (l : Line) : Nat :=
  l.foldl (fun a c => a * 10 + (c.toNat - 48)) 0

/-- Python `int(s)` wrapped in `try`: `none` models the `ValueError`
path (the sources always catch it).  Sign and surrounding whitespace are
accepted, anything else rejected. -/
def parseIntL (l : Line) : Option Int :=
  match stripL l with
  | '-' :: rest => if rest ≠ [] ∧ rest.all Char.isDigit then some (-(digitsToNat rest : Int)) else none
  | '+' :: rest => if rest ≠ [] ∧ rest.all Char.isDigit then some ((digitsToNat rest : Int)) else none
  | rest => if rest ≠ [] ∧ rest.all Char.isDigit then some ((digitsToNat rest : Int)) else none

/-- Python `l.split(":")[-1]`: the text after the last colon (the whole
line when no colon occurs). -/
def afterLastColon (l : Line) : Line :=
  (l.reverse.takeWhile (fun c => c ≠ ':')).reverse

/-- Trailing numeric field of a response line:
`int(line.split(":")[-1].strip())` under `try`. -/
def trailingInt (l : Line) : Option Int := parseIntL (afterLastColon l)

namespace SerialService

/-!
`services/serial_service.py`, class `SerialService`.  Only the state
visible to the claims is modelled: whether a device was opened
(`available`) and whether a handle exists (`hasSer`).  When pyserial is
missing, no port is configured, or opening raises, `__init__` leaves
`available = False` and `ser = None` and returns without raising
(disconnected mode).
-/

structure State where
  available : Bool
  hasSer : Bool
deriving DecidableEq, Repr

/-- The state `__init__` establishes in disconnected mode
(`serial is None or not port`, or `serial.Serial(...)` raised). -/
def disconnected : State := { available := false, hasSer := false }

/-- `SerialService.send`.  The underlying `ser.write` is abstracted as
an `Except` argument; its exception is caught by the `except: pass` in
the source.  The result is `ok none` when nothing was written and
`ok (some bytes)` when the newline-terminated line went out; an `error`
result would model an uncaught exception, and no branch produces one. -/
def send (s : State) (write : Except Line Unit) (line : Line) : Except Line (Option Line) :=
  if !s.available || !s.hasSer then Except.ok none
  else
    match write with
    | Except.error _ => Except.ok none
    | Except.ok _ => Except.ok (some (stripL line ++ ['\n']))

/-- `bool(self._serial and self._serial.available)` as exposed by
`DoorController.is_connected` and `ESPFingerprint.is_connected`; the
`SerialService` object itself always exists, so this is the
`available` flag. -/
def is_connected (s : State) : Bool := s.available

end SerialService

namespace ESPFingerprint

/-!
`services/fingerprint_service.py`, class `ESPFingerprint` (the
CommandChannel).  A synchronous operation drains the queue, sends its
command, and polls popped lines against success/failure predicates
until its deadline.  The lines the poll loop would pop before the
deadline are passed as an explicit list (in FIFO order); reaching its
end models the deadline expiring with no further line.  Python returns
heterogeneous tuples of different arities, modelled as `List PyVal`.
-/

/-- A Python value as it appears in the returned result tuples. -/
inductive PyVal where
  | pyBool (b : Bool)
  | pyInt (n : Int)
  | pyStr (s : Line)
  | pyNone
deriving DecidableEq, Repr

def pyOfOptInt : Option Int → PyVal
  | some n => PyVal.pyInt n
  | none => PyVal.pyNone

/-- Commands an operation writes to the transport (symbolic; the texts
are "enroll", "delete <id>", "delete all", "library"). -/
inductive FpCmd where
  | enrollCmd
  | deleteCmd (pageId : Int)
  | deleteAllCmd
  | libraryCmd
deriving DecidableEq, Repr

/-- `line.lower().startswith("inform enroll complete, id:")`. -/
def enrollSuccessLine (l : Line) : Bool := startsWithCI l (chars "inform enroll complete, id:")

/-- `line.lower().startswith("error enroll")`. -/
def enrollErrorLine (l : Line) : Bool := startsWithCI l (chars "error enroll")

/-- `line.lower().startswith("inform delete success")`. -/
def deleteSuccessLine (l : Line) : Bool := startsWithCI l (chars "inform delete success")

/-- `line.lower().startswith("error delete")`. -/
def deleteErrorLine (l : Line) : Bool := startsWithCI l (chars "error delete")

/-- `line.lower().startswith("inform library first empty slot:")`. -/
def librarySuccessLine (l : Line) : Bool := startsWithCI l (chars "inform library first empty slot:")

/-- `line.lower().startswith("error library")`. -/
def libraryErrorLine (l : Line) : Bool := startsWithCI l (chars "error library")

/-- The `while time.time() < deadline` loop of `enroll`. -/
def enrollLoop : List Line → List PyVal
  | [] => [PyVal.pyBool false, PyVal.pyNone, PyVal.pyStr (chars "timeout")]
  | l :: rest =>
    if l = [] then enrollLoop rest
    else if enrollSuccessLine l then
      [PyVal.pyBool true, pyOfOptInt (trailingInt l), PyVal.pyStr (chars "enroll complete")]
    else if enrollErrorLine l then [PyVal.pyBool false, PyVal.pyNone, PyVal.pyStr l]
    else enrollLoop rest

/-- `ESPFingerprint.enroll`: returns the commands sent and the Python
result tuple `(ok, page_id, message)`. -/
def enroll (connected : Bool) (lines : List Line) : List FpCmd × List PyVal :=
  if !connected then ([], [PyVal.pyBool false, PyVal.pyNone, PyVal.pyStr (chars "Serial not connected")])
  else ([FpCmd.enrollCmd], enrollLoop lines)

/-- The poll loop of `delete`. -/
def deleteLoop : List Line → List PyVal
  | [] => [PyVal.pyBool false, PyVal.pyStr (chars "timeout")]
  | l :: rest =>
    if l = [] then deleteLoop rest
    else if deleteSuccessLine l then [PyVal.pyBool true, PyVal.pyStr (chars "deleted")]
    else if deleteErrorLine l then [PyVal.pyBool false, PyVal.pyStr l]
    else deleteLoop rest

/-- `ESPFingerprint.delete`: result tuple is the pair `(ok, message)`. -/
def delete (connected : Bool) (pageId : Int) (lines : List Line) : List FpCmd × List PyVal :=
  if !connected then ([], [PyVal.pyBool false, PyVal.pyStr (chars "Serial not connected")])
  else ([FpCmd.deleteCmd pageId], deleteLoop lines)

/-- The poll loop of `delete_all`. -/
def deleteAllLoop : List Line → List PyVal
  | [] => [PyVal.pyBool false, PyVal.pyStr (chars "timeout")]
  | l :: rest =>
    if l = [] then deleteAllLoop rest
    else if deleteSuccessLine l then [PyVal.pyBool true, PyVal.pyStr (chars "all deleted")]
    else if deleteErrorLine l then [PyVal.pyBool false, PyVal.pyStr l]
    else deleteAllLoop rest

/-- `ESPFingerprint.delete_all`: result tuple is the pair `(ok, message)`. -/
def delete_all (connected : Bool) (lines : List Line) : List FpCmd × List PyVal :=
  if !connected then ([], [PyVal.pyBool false, PyVal.pyStr (chars "Serial not connected")])
  else ([FpCmd.deleteAllCmd], deleteAllLoop lines)

/-- The poll loop of `library_first_empty`. -/
def libraryLoop : List Line → List PyVal
  | [] => [PyVal.pyBool false, PyVal.pyNone, PyVal.pyStr (chars "timeout")]
  | l :: rest =>
    if l = [] then libraryLoop rest
    else if librarySuccessLine l then
      [PyVal.pyBool true, pyOfOptInt (trailingInt l), PyVal.pyStr (chars "ok")]
    else if libraryErrorLine l then [PyVal.pyBool false, PyVal.pyNone, PyVal.pyStr l]
    else libraryLoop rest

/-- `ESPFingerprint.library_first_empty`: result tuple
`(ok, slot, message)`. -/
def library_first_empty (connected : Bool) (lines : List Line) : List FpCmd × List PyVal :=
  if !connected then ([], [PyVal.pyBool false, PyVal.pyNone, PyVal.pyStr (chars "Serial not connected")])
  else ([FpCmd.libraryCmd], libraryLoop lines)

end ESPFingerprint

/-- Method field of an `access_log` record (`log_access(method=...)`). -/
inductive Method where
  | passcode
  | fingerprint
  | face
deriving DecidableEq, Repr

/-- Result field of an `access_log` record. -/
inductive AccessResult where
  | granted
  | denied
  | blocked
deriving DecidableEq, Repr

/-- One `log_access` call (an AccessAttempt). -/
structure LogRec where
  method : Method
  result : AccessResult
deriving DecidableEq, Repr

namespace DoorController

/-!
`services/door_controller.py`, class `DoorController`.  The
collaborators reached through lazy imports (settings, access log,
credential store) are an explicit environment; each `Except Unit`
value stands for a call that either returns or raises (every raise in
the source is caught where the corresponding `match` discharges the
`error` case).
-/

/-- Environment of `_handle_passcode_from_keypad`. -/
structure Env where
  /-- `get_all_settings()` behind its `try`: `error` = the call raised,
  `ok none` = no `passcode_enabled` key (the `s.get` default `1`
  applies), `ok (some b)` = the stored toggle. -/
  settingsPasscodeEnabled : Except Unit (Option Bool)
  /-- `from .log_service import log_access` succeeded. -/
  logAvailable : Bool
  /-- `from .passcode_service import ...` succeeded; on failure the
  outer `except` forces `ok = False`. -/
  storeImportOk : Bool
  /-- `reveal_main_passcode()`: `error` = raised (caught, treated as no
  main code), `ok m` = revealed plaintext (`[]` when undecryptable). -/
  revealMain : Except Unit Line
  /-- `list_active_guest_codes()`: `error` = raised (outer `except`
  forces `ok = False`); `ok rows` = the `r.get("id")` of each returned
  row, in store order. -/
  guests : Except Unit (List (Option Int))
  /-- `reveal_guest_passcode(int(pid))`: `error` = raised (caught,
  guest skipped). -/
  revealGuest : Int → Except Unit Line
  /-- `self._serial.available` (the serial object itself always
  exists). -/
  serialAvailable : Bool
  /-- The underlying `ser.write` does not raise. -/
  writeOk : Bool

/-- The `pass_enabled` value after the settings `try`/`except`:
failures and a missing key both yield the enabled default. -/
def passEnabled (e : Env) : Bool :=
  match e.settingsPasscodeEnabled with
  | Except.error _ => true
  | Except.ok none => true
  | Except.ok (some b) => b

/-- The `for r in rows` guest loop: skip rows without id, skip guests
whose reveal raises or is empty, first plaintext equal to the entered
code wins. -/
def guestScan (e : Env) (code : Line) : List (Option Int) → Bool
  | [] => false
  | none :: rest => guestScan e code rest
  | some pid :: rest =>
    match e.revealGuest pid with
    | Except.error _ => guestScan e code rest
    | Except.ok g => if g ≠ [] ∧ code = g then true else guestScan e code rest

/-- `if plain_main and code == str(plain_main)` after the inner
`try` around `reveal_main_passcode()`. -/
def mainMatch (e : Env) (code : Line) : Bool :=
  match e.revealMain with
  | Except.error _ => false
  | Except.ok m => decide (m ≠ [] ∧ code = m)

/-- The `ok` flag computed by the verification block of
`_handle_passcode_from_keypad` (the whole block sits in a `try` whose
`except` leaves `ok = False`). -/
def verifyOk (e : Env) (code : Line) : Bool :=
  if !e.storeImportOk then false
  else if mainMatch e code then true
  else
    match e.guests with
    | Except.error _ => false
    | Except.ok rows => guestScan e code rows

/-- `DoorController._send(line)`: dropped when the serial side is
unavailable, and a raising write is swallowed. -/
def sendOut (e : Env) (l : Line) : List Line :=
  if e.serialAvailable && e.writeOk then [l] else []

/-- `DoorController._handle_passcode_from_keypad`.  Returns the lines
written to the transport and the `log_access` records made (a raising
`log_access` is caught in the source and, like a failed import, simply
loses the record). -/
def handle_passcode_from_keypad (e : Env) (code : Line) : List Line × List LogRec :=
  let c := stripL code
  if c = [] then ([], [])
  else if !passEnabled e then
    ([], if e.logAvailable then [⟨Method.passcode, AccessResult.blocked⟩] else [])
  else if verifyOk e c then
    (sendOut e (chars "open passcode"),
     if e.logAvailable then [⟨Method.passcode, AccessResult.granted⟩] else [])
  else
    ([], if e.logAvailable then [⟨Method.passcode, AccessResult.denied⟩] else [])

/-- The auto-close timers created by a controller, with the lifecycle
facts of `threading.Timer`: `created` counts started timers (ids
`0, 1, ...`), `cancelled` the ids on which `cancel()` was called,
`fired` the ids whose callback has run, and `ref` is the
`self._auto_close_timer` slot. -/
structure TimerSys where
  created : Nat
  cancelled : List Nat
  fired : List Nat
  ref : Option Nat
deriving DecidableEq, Repr

def TimerSys.init : TimerSys := { created := 0, cancelled := [], fired := [], ref := none }

/-- `DoorController._cancel_auto_close`: cancel the referenced timer if
any and clear the slot (`cancel()` on an already fired timer is a
no-op, which the fire guard below reflects). -/
def cancel_auto_close (s : TimerSys) : TimerSys :=
  match s.ref with
  | none => s
  | some t => { s with ref := none, cancelled := t :: s.cancelled }

/-- `DoorController._schedule_auto_close`: nothing when
`hold_time <= 0`; otherwise cancel the old timer first, then create,
store and start a fresh one. -/
def schedule_auto_close (holdTime : Int) (s : TimerSys) : TimerSys :=
  if holdTime ≤ 0 then s
  else
    let s1 := cancel_auto_close s
    { s1 with created := s1.created + 1, ref := some s1.created }

/-- The deadline of timer `t` elapsing: per `threading.Timer`, the
`_task` callback (`close_door()`, i.e. `_send("close")`) runs exactly
when the timer was started, was not cancelled while waiting, and has
not already run; a raising `close_door` is caught inside `_task`. -/
def fireTimer (s : TimerSys) (t : Nat) (avail writeOk : Bool) : TimerSys × List Line :=
  if t < s.created ∧ t ∉ s.cancelled ∧ t ∉ s.fired then
    ({ s with fired := t :: s.fired }, if avail && writeOk then [chars "close"] else [])
  else (s, [])

/-- Timer `t` is outstanding: started, not cancelled, not yet fired. -/
def liveTimer (s : TimerSys) (t : Nat) : Prop :=
  t < s.created ∧ t ∉ s.cancelled ∧ t ∉ s.fired

/-- Controller state touched by line processing. -/
structure CtrlState where
  holdTime : Int
  timers : TimerSys
deriving DecidableEq, Repr

/-- `DoorController._process_line_for_logic`: the internal logic stage.
Returns the new state, the lines written to the transport and the log
records made.  (The fingerprint branch also extracts the sensor id via
a regex, but only passes it to `_log_fingerprint`, which ignores it
when logging.) -/
def process_line_for_logic (e : Env) (s : CtrlState) (line : Line) :
    CtrlState × List Line × List LogRec :=
  let text := stripL line
  if startsWithL text (chars "Inform passcode") then
    let msg := stripL (text.drop (chars "Inform passcode").length)
    let code := if startsWithL msg (chars ":") then stripL (msg.drop 1) else msg
    if code ≠ [] then (s, handle_passcode_from_keypad e code) else (s, [], [])
  else if startsWithL text (chars "Inform finger found") then
    (s, [], if e.logAvailable then [⟨Method.fingerprint, AccessResult.granted⟩] else [])
  else if containsSubL text (chars "Inform finger not found") then
    (s, [], if e.logAvailable then [⟨Method.fingerprint, AccessResult.denied⟩] else [])
  else if containsSubL text (chars "Inform door opened") then
    ({ s with timers := schedule_auto_close s.holdTime s.timers }, [], [])
  else if containsSubL text (chars "Inform door closing")
      || containsSubL text (chars "Inform door closed") then
    ({ s with timers := cancel_auto_close s.timers }, [], [])
  else (s, [], [])

/-- An event the controller reacts to: an inbound line, or the deadline
of timer `t` elapsing. -/
inductive DoorEvent where
  | lineIn (l : Line)
  | timerFire (t : Nat)

/-- One controller step. -/
def step (e : Env) (s : CtrlState) : DoorEvent → CtrlState × List Line × List LogRec
  | DoorEvent.lineIn l => process_line_for_logic e s l
  | DoorEvent.timerFire t =>
    let r := fireTimer s.timers t e.serialAvailable e.writeOk
    ({ s with timers := r.1 }, r.2, [])

/-- Run a sequence of events, concatenating outputs. -/
def run (e : Env) (s : CtrlState) : List DoorEvent → CtrlState × List Line × List LogRec
  | [] => (s, [], [])
  | ev :: rest =>
    let r := step e s ev
    let r2 := run e r.1 rest
    (r2.1, r.2.1 ++ r2.2.1, r.2.2 ++ r2.2.2)

/-- A dispatch stage of `_handle_rx`. -/
inductive RxStage where
  | logicStage
  | primaryStage
  | listenerStage (i : Nat)
deriving DecidableEq, Repr

/-- `DoorController._handle_rx`: the fan-out of one inbound line.  The
outcome of every stage (normal return or exception) is given as data;
each stage sits in its own `try`/`except: pass`, so outcomes are
discarded exactly as in the source.  The result is the ordered trace of
stages the line was delivered to. -/
def handle_rx (line : Line) (logicOutcome : Except Unit Unit) (primaryPresent : Bool)
    (primaryOutcome : Except Unit Unit) (listenerOutcomes : List (Except Unit Unit)) :
    List RxStage :=
  if line = [] then []
  else
    let _ := match logicOutcome with | Except.ok _ => () | Except.error _ => ()
    let b := if primaryPresent then
        let _ := match primaryOutcome with | Except.ok _ => () | Except.error _ => ()
        [RxStage.primaryStage]
      else []
    let c := (List.range listenerOutcomes.length).map RxStage.listenerStage
    RxStage.logicStage :: (b ++ c)

end DoorController

namespace HomeTab

/-!
`ui/home.py`, method `HomeTab._on_serial_line` — the DoorState machine.
`__init__` sets `self._door_state = "closed"` and
`self._door_busy = False`.
-/

/-- The `_door_state` string. -/
inductive DoorState where
  | closed
  | opening
  | openHold
  | closing
deriving DecidableEq, Repr

/-- A pause/resume request issued to the recognition daemon (the calls
sit in `try`/`except`, so the request is always issued). -/
inductive SchedReq where
  | pauseReq
  | resumeReq
deriving DecidableEq, Repr

structure UIState where
  doorState : DoorState
  doorBusy : Bool
deriving DecidableEq, Repr

def UIState.init : UIState := { doorState := DoorState.closed, doorBusy := false }

/-- `HomeTab._on_serial_line`: the `elif` chain over the stripped line.
Branches below the door events only update status labels and never
touch `_door_state`. -/
def on_serial_line (s : UIState) (line : Line) : UIState × List SchedReq :=
  if line = [] then (s, [])
  else
    let text := stripL line
    if containsSubL text (chars "Inform door opening") then
      ({ doorState := DoorState.opening, doorBusy := true }, [SchedReq.pauseReq])
    else if containsSubL text (chars "Inform door opened") then
      ({ s with doorState := DoorState.openHold }, [])
    else if containsSubL text (chars "Inform door closing") then
      ({ s with doorState := DoorState.closing }, [])
    else if containsSubL text (chars "Inform door closed") then
      ({ doorState := DoorState.closed, doorBusy := false }, [SchedReq.resumeReq])
    else (s, [])

end HomeTab

namespace RecognitionDaemon

/-!
`services/recog_daemon.py`, class `RecognitionDaemon`.  Wall-clock
instants and the cooldown/hold configuration are integers in
milliseconds (the source keeps seconds as floats and multiplies by
1000 at each comparison).
-/

structure Config where
  denyCdMs : Int
  matchCdMs : Int
  matchHoldMs : Int
deriving DecidableEq, Repr

structure State where
  paused : Bool
  lastDenyTs : Int
  lastMatchTs : Int
  pendingName : Option Line
  pendingDist : Int
  pendingSince : Int
deriving DecidableEq, Repr

/-- `RecognitionDaemon.pause`: set the paused flag, push an empty
overlay (a raising `on_visual` is caught), clear the PendingMatch. -/
def pause (s : State) : State :=
  { s with paused := true, pendingName := none, pendingSince := 0 }

/-- `RecognitionDaemon.resume`: clear the paused flag, both cooldown
timestamps and the PendingMatch. -/
def resume (s : State) : State :=
  { s with paused := false, lastMatchTs := 0, lastDenyTs := 0,
           pendingName := none, pendingSince := 0 }

/-- Result of `recognize_with_box(frame, threshold)`. -/
structure RecogResult where
  matched : Bool
  name : Line
  dist : Int
  box : Option (Int × Int × Int × Int)
deriving DecidableEq, Repr

/-- Inputs one loop iteration draws from the outside world. -/
structure TickIn where
  now : Int
  /-- `get_all_settings()` behind its `try`: `error` = raised (enabled
  default), `ok none` = key missing (enabled default), `ok (some b)` =
  stored `face_recognition_enabled`. -/
  faceEnabled : Except Unit (Option Bool)
  /-- `self._get_frame()` returned a frame (`frame is not None`). -/
  frame : Bool
  /-- `recognize_with_box`: `error` = raised (caught by the iteration
  level `except`). -/
  recog : Except Unit RecogResult
deriving Repr

structure TickOut where
  state : State
  /-- The `(name, dist)` passed to `on_hit`, when fired this tick. -/
  hit : Option (Line × Int)
deriving DecidableEq, Repr

/-- One iteration of the `run()` loop body (between two sleeps).  All
callback exceptions are caught in the source; a matcher or settings
exception aborts the iteration with the state as already mutated, which
in every branch below means unchanged. -/
def tick (cfg : Config) (s : State) (i : TickIn) : TickOut :=
  if s.paused then { state := s, hit := none }
  else
    let faceEnabled :=
      match i.faceEnabled with
      | Except.error _ => true
      | Except.ok none => true
      | Except.ok (some b) => b
    if !faceEnabled then
      let s2 := { s with pendingName := none, pendingSince := 0, lastMatchTs := 0, lastDenyTs := 0 }
      { state := s2, hit := none }
    else if !i.frame then { state := s, hit := none }
    else
      match s.pendingName with
      | some nm =>
        if cfg.matchHoldMs - (i.now - s.pendingSince) ≤ 0 then
          { state := pause { s with pendingName := none, pendingSince := 0 },
            hit := some (nm, s.pendingDist) }
        else
          { state := s, hit := none }
      | none =>
        match i.recog with
        | Except.error _ => { state := s, hit := none }
        | Except.ok r =>
          if r.matched && r.name ≠ [] then
            if cfg.matchCdMs ≤ i.now - s.lastMatchTs then
              let s2 := { s with lastMatchTs := i.now, pendingName := some r.name, pendingDist := r.dist, pendingSince := i.now }
              { state := s2, hit := none }
            else { state := s, hit := none }
          else
            if cfg.denyCdMs ≤ i.now - s.lastDenyTs then
              { state := { s with lastDenyTs := i.now }, hit := none }
            else { state := s, hit := none }

end RecognitionDaemon

namespace ESPFingerprint

/-!
Observer delivery bookkeeping for the optional `on_line` callback of
`ESPFingerprint` (`_rx_line` plus the `self._user_cb(line)` calls inside
the polling loops).
-/

/-- A line survives `_rx_line` filtering: non-empty and not the LED
acknowledgement spam. -/
def rxAccept (l : Line) : Bool := decide (l ≠ []) && !(containsSubL l (chars "LED set success"))

/-- Observer deliveries made by `_rx_line` alone for a batch of
received lines (one delivery per accepted line); this is also the queue
content those lines leave behind. -/
def rxDeliveries (arr : List Line) : List Line := arr.filter rxAccept

/-- The lines the `enroll` polling loop pops and echoes to the observer
before returning: everything up to and including the first line
matching a success or failure predicate, or the whole queue when none
matches (the deadline path keeps popping).  An empty pop skips the echo
(`if not line: continue`). -/
def enrollPopped : List Line → List Line
  | [] => []
  | l :: rest =>
    if l = [] then enrollPopped rest
    else if enrollSuccessLine l || enrollErrorLine l then [l]
    else l :: enrollPopped rest

/-- All observer deliveries for lines received while an `enroll` is in
flight (queue drained beforehand): each accepted line is echoed once
when `_rx_line` enqueues it, and once more if and when the polling loop
pops it.  Deliveries are collected as a list; only per-line counts
matter. -/
def enrollFlightDeliveries (arr : List Line) : List Line :=
  rxDeliveries arr ++ enrollPopped (rxDeliveries arr)

end ESPFingerprint

namespace PasscodeService

/-!
`services/passcode_service.py` — the credential store.  A row of the
`passcodes` table carries `code_hash` (SHA-256 of the code it was
created from), `code_masked`, `is_main`, `is_one_time`, `used`,
`valid_until` and the nullable encrypted `code_enc`.  The row is
modelled by the code it was created from (`code`, standing for its
hash under the standard collision-freeness reading of hash equality),
whether `code_enc` is present and decryptable (`encAvailable`), and the
two facts about `valid_until` the queries test.
-/

structure Row where
  id : Int
  isMain : Bool
  isOneTime : Bool
  used : Bool
  /-- The code this row was created from (determines `code_hash`). -/
  code : Line
  /-- `code_enc` is non-null and the vault decrypts it. -/
  encAvailable : Bool
  /-- `valid_until IS NOT NULL`. -/
  hasValidUntil : Bool
  /-- `valid_until >= NOW()` at the moment of the call. -/
  activeNow : Bool
deriving DecidableEq, Repr

/-- The store: the `passcodes` rows, listed in the order the queries of
this module return them. -/
abbrev Store := List Row

/-- `_dec_or_empty` applied to a row: the plaintext when `code_enc` is
decryptable, else the empty string. -/
def decOrEmpty (r : Row) : Line := if r.encAvailable then r.code else []

/-- `reveal_main_passcode`: the main row with the greatest id
(`ORDER BY id DESC LIMIT 1`), decrypted best-effort. -/
def reveal_main_passcode (st : Store) : Line :=
  let latest := st.foldl
    (fun acc r =>
      if r.isMain then
        match acc with
        | none => some r
        | some a => if a.id < r.id then some r else some a
      else acc)
    (none : Option Row)
  match latest with
  | none => []
  | some r => decOrEmpty r

/-- `reveal_guest_passcode(pid)`: the guest row with that id, decrypted
best-effort. -/
def reveal_guest_passcode (st : Store) (pid : Int) : Line :=
  match st.find? (fun r => r.id = pid && !r.isMain) with
  | none => []
  | some r => decOrEmpty r

/-- A row the `list_active_guest_codes` query returns:
`is_main=0 AND used=0 AND valid_until IS NOT NULL AND valid_until >= NOW()`. -/
def activeGuestRow (r : Row) : Bool :=
  !r.isMain && !r.used && r.hasValidUntil && r.activeNow

/-- `list_active_guest_codes`, reduced to the ids the keypad handler
reads from the returned dicts. -/
def list_active_guest_codes (st : Store) : List (Option Int) :=
  (st.filter activeGuestRow).map (fun r => some r.id)

/-- `_validate_numeric_code`: exactly `MAX_LEN = 4` digits, else a
`ValueError` is raised. -/
def validNumeric (code : Line) : Bool :=
  decide (code ≠ []) && code.all Char.isDigit && code.length = 4

/-- `UPDATE passcodes SET used=1 WHERE id=%s`. -/
def markUsed (st : Store) (pid : Int) : Store :=
  st.map (fun r => if r.id = pid then { r with used := true } else r)

/-- `check_passcode` — the store-side verification function (not called
by the keypad path).  The opening toggle block binds `get_all_settings`
without calling it (note the missing parentheses in the source), so the
`s.get` attribute access raises and the bare `except` skips the block:
the toggle never blocks here.  A non-4-digit code raises `ValueError`
(the `Except.error` case).  Returns the `ok` flag, the store after the
one-time update, and the log records written. -/
def check_passcode (st : Store) (code : Line) : Except Unit (Bool × Store × List LogRec) :=
  if !validNumeric code then Except.error ()
  else
    match st.find? (fun r => r.isMain && r.code = code) with
    | some _ =>
      Except.ok (true, st, [⟨Method.passcode, AccessResult.granted⟩])
    | none =>
      match st.find? (fun r => !r.isMain && r.code = code && r.hasValidUntil && r.activeNow) with
      | none => Except.ok (false, st, [⟨Method.passcode, AccessResult.denied⟩])
      | some row =>
        if !row.used then
          let st2 := if row.isOneTime then markUsed st row.id else st
          Except.ok (true, st2, [⟨Method.passcode, AccessResult.granted⟩])
        else Except.ok (false, st, [⟨Method.passcode, AccessResult.denied⟩])

end PasscodeService

namespace DoorController

/-- The keypad handler environment induced by a healthy credential
store `st` (no call raises): `reveal_main_passcode`,
`list_active_guest_codes` and `reveal_guest_passcode` answer from the
store. -/
def envOfStore (st : PasscodeService.Store)
    (settings : Except Unit (Option Bool)) (logAvail serialAvail writeOk : Bool) : Env :=
  { settingsPasscodeEnabled := settings
    logAvailable := logAvail
    storeImportOk := true
    revealMain := Except.ok (PasscodeService.reveal_main_passcode st)
    guests := Except.ok (PasscodeService.list_active_guest_codes st)
    revealGuest := fun pid => Except.ok (PasscodeService.reveal_guest_passcode st pid)
    serialAvailable := serialAvail
    writeOk := writeOk }

/-- One keypad verification against a live store, returning the sends,
the log records, and the store afterwards.  The store comes back
unchanged because `_handle_passcode_from_keypad` only calls the three
read-only store functions above — it contains no call that could set
the `used` flag (`check_passcode`, which does, is not on this path). -/
def keypadAttempt (st : PasscodeService.Store) (settings : Except Unit (Option Bool))
    (logAvail serialAvail writeOk : Bool) (code : Line) :
    (List Line × List LogRec) × PasscodeService.Store :=
  (handle_passcode_from_keypad (envOfStore st settings logAvail serialAvail writeOk) code, st)

end DoorController

/-- A store holding a single active, unused, one-time guest credential
with code `5678`. -/
def oneTimeStore : PasscodeService.Store :=
  [{ id := 1, isMain := false, isOneTime := true, used := false, code := chars "5678",
     encAvailable := true, hasValidUntil := true, activeNow := true }]

/-- The store after the first keypad success against `oneTimeStore`. -/
def oneTimeStoreAfterFirst : PasscodeService.Store :=
  (DoorController.keypadAttempt oneTimeStore (Except.ok (some true)) true true true
    (chars "5678")).2

/-- C1.  For every keypad passcode verification that succeeds against a
one-time guest credential, the claim says the credential is marked used
so that a second attempt with the same code is denied.  The keypad path
of the code does not do this: against a store holding one active unused
one-time guest code `5678`, the first keypad attempt grants and sends
`open passcode`, the store afterwards is unchanged (`used` still
false), and a second attempt with the same code grants again.  The
store module itself implements the claimed behaviour in
`check_passcode` (grant marks the one-time row used and a second check
is denied), but the keypad path never calls it — the code contradicts
the intent its own store module implements. -/
theorem one_time_guest_not_marked_used_on_keypad_success :
    (DoorController.keypadAttempt oneTimeStore (Except.ok (some true)) true true true
        (chars "5678")).1
      = ([chars "open passcode"], [⟨Method.passcode, AccessResult.granted⟩])
    ∧ oneTimeStoreAfterFirst = oneTimeStore
    ∧ (DoorController.keypadAttempt oneTimeStoreAfterFirst (Except.ok (some true)) true true true
        (chars "5678")).1
      = ([chars "open passcode"], [⟨Method.passcode, AccessResult.granted⟩])
    ∧ PasscodeService.check_passcode oneTimeStore (chars "5678")
      = Except.ok (true, PasscodeService.markUsed oneTimeStore 1,
          [⟨Method.passcode, AccessResult.granted⟩])
    ∧ PasscodeService.check_passcode (PasscodeService.markUsed oneTimeStore 1) (chars "5678")
      = Except.ok (false, PasscodeService.markUsed oneTimeStore 1,
          [⟨Method.passcode, AccessResult.denied⟩]) := by
  refine ⟨by decide, by decide, by decide, by rfl, by rfl⟩

/-- A store holding only the main credential `1234`, decryptable. -/
def mainStore : PasscodeService.Store :=
  [{ id := 1, isMain := true, isOneTime := false, used := false, code := chars "1234",
     encAvailable := true, hasValidUntil := false, activeNow := false }]

/-- C5.  With main code `1234` set and the passcode feature enabled,
processing the inbound line `Inform passcode 1234` sends exactly one
`open passcode` command and records exactly one granted passcode
attempt (and leaves the controller timer state untouched). -/
theorem inform_passcode_1234_end_to_end :
    DoorController.process_line_for_logic
        (DoorController.envOfStore mainStore (Except.ok (some true)) true true true)
        { holdTime := 5, timers := DoorController.TimerSys.init }
        (chars "Inform passcode 1234")
      = ({ holdTime := 5, timers := DoorController.TimerSys.init },
         [chars "open passcode"], [⟨Method.passcode, AccessResult.granted⟩]) := by
  decide

/-- An environment in which reading the settings raises, but the store
answers and holds main code `1234`. -/
def settingsErrorEnv : DoorController.Env :=
  { settingsPasscodeEnabled := Except.error ()
    logAvailable := true
    storeImportOk := true
    revealMain := Except.ok (chars "1234")
    guests := Except.ok []
    revealGuest := fun _ => Except.ok []
    serialAvailable := true
    writeOk := true }

/-- C2, counterexample.  The claim says an exception raised while
reading settings results in no command being sent.  In the code a
settings exception only falls back to the enabled default: with the
settings read raising and main code `1234` stored, entering `1234`
still sends `open passcode`. -/
theorem settings_exception_still_sends_on_match :
    settingsErrorEnv.settingsPasscodeEnabled = Except.error ()
    ∧ (DoorController.handle_passcode_from_keypad settingsErrorEnv (chars "1234")).1
      = [chars "open passcode"] :=
  ⟨rfl, by decide⟩

namespace DoorController

/-- The `ok` flag is true exactly when the store import succeeded and
either the main credential or some listed guest credential positively
matched; in particular no exception path yields a match. -/
theorem verifyOk_iff (e : Env) (c : Line) :
    verifyOk e c = true
      ↔ e.storeImportOk = true
        ∧ (mainMatch e c = true
          ∨ ∃ rows, e.guests = Except.ok rows ∧ guestScan e c rows = true) := by
  unfold verifyOk
  cases himp : e.storeImportOk with
  | false => simp
  | true =>
    by_cases hm : mainMatch e c = true
    · simp [hm]
    · cases hg : e.guests with
      | error u => simp [hm, hg]
      | ok rows => simp [hm, hg]

/-- The keypad handler sends `open passcode` exactly when the stripped
code is non-empty, the feature toggle resolved to enabled, and the
verification flag is true (assuming a connected, healthy transport). -/
theorem handle_sends_iff (e : Env) (code : Line)
    (ha : e.serialAvailable = true) (hw : e.writeOk = true) :
    (handle_passcode_from_keypad e code).1 = [chars "open passcode"]
      ↔ stripL code ≠ [] ∧ passEnabled e = true ∧ verifyOk e (stripL code) = true := by
  unfold handle_passcode_from_keypad
  by_cases h0 : stripL code = []
  · simp [h0]
  · by_cases h1 : passEnabled e = true
    · by_cases h2 : verifyOk e (stripL code) = true
      · simp [h0, h1, h2, sendOut, ha, hw]
      · simp [h0, h1, h2]
    · simp [h0, h1]

end DoorController

/-- C2, amended.  For a keypad verification over a connected transport:
the `open passcode` command is sent iff the non-empty entered code was
positively matched (main first, then a listed active guest), with no
match possible when the store import, the main reveal, or the guest
listing raised; an exception while reading the credential store (guest
listing raising, main not matched) yields no command and a denied
attempt recorded best-effort; an exception while reading settings only
falls back to the enabled default. -/
theorem passcode_fail_closed_amended (e : DoorController.Env) (code : Line)
    (ha : e.serialAvailable = true) (hw : e.writeOk = true) :
    ((DoorController.handle_passcode_from_keypad e code).1 = [chars "open passcode"]
      ↔ stripL code ≠ [] ∧ DoorController.passEnabled e = true
        ∧ DoorController.verifyOk e (stripL code) = true)
    ∧ (DoorController.verifyOk e (stripL code) = true
      ↔ e.storeImportOk = true
        ∧ (DoorController.mainMatch e (stripL code) = true
          ∨ ∃ rows, e.guests = Except.ok rows
              ∧ DoorController.guestScan e (stripL code) rows = true))
    ∧ (e.guests = Except.error () → DoorController.mainMatch e (stripL code) = false →
        (DoorController.handle_passcode_from_keypad e code).1 = []
        ∧ (stripL code ≠ [] → DoorController.passEnabled e = true → e.logAvailable = true →
            (DoorController.handle_passcode_from_keypad e code).2
              = [⟨Method.passcode, AccessResult.denied⟩]))
    ∧ (e.settingsPasscodeEnabled = Except.error () → DoorController.passEnabled e = true) := by
  refine ⟨DoorController.handle_sends_iff e code ha hw, DoorController.verifyOk_iff e _, ?_, ?_⟩
  · intro hg hm
    have hv : DoorController.verifyOk e (stripL code) = false := by
      unfold DoorController.verifyOk
      cases himp : e.storeImportOk <;> simp [hm, hg]
    unfold DoorController.handle_passcode_from_keypad
    by_cases h0 : stripL code = []
    · simp [h0]
    · by_cases h1 : DoorController.passEnabled e = true
      · simp [h0, h1, hv]
      · simp [h0, h1]
  · intro hs
    unfold DoorController.passEnabled
    rw [hs]

/-- Witness for the amended C2 theorem at a concrete environment. -/
theorem passcode_fail_closed_amended_witness :
    (DoorController.handle_passcode_from_keypad
        (DoorController.envOfStore mainStore (Except.ok (some true)) true true true)
        (chars "1234")).1 = [chars "open passcode"] :=
  ((passcode_fail_closed_amended
      (DoorController.envOfStore mainStore (Except.ok (some true)) true true true)
      (chars "1234") rfl rfl).1).mpr (by decide)

namespace DoorController

/-- Timer states reachable from a fresh controller through arming,
cancelling and deadline events. -/
inductive ReachableT : TimerSys → Prop where
  | init : ReachableT TimerSys.init
  | sched (holdTime : Int) {s : TimerSys} : ReachableT s →
      ReachableT (schedule_auto_close holdTime s)
  | canc {s : TimerSys} : ReachableT s → ReachableT (cancel_auto_close s)
  | fire (t : Nat) (avail writeOk : Bool) {s : TimerSys} : ReachableT s →
      ReachableT (fireTimer s t avail writeOk).1

/-- Every started timer is cancelled, fired, or the referenced one, and
the slot only holds started timers. -/
def TimerInv (s : TimerSys) : Prop :=
  (∀ t, t < s.created → t ∈ s.cancelled ∨ t ∈ s.fired ∨ s.ref = some t)
  ∧ (∀ t, s.ref = some t → t < s.created)

theorem timerInv_init : TimerInv TimerSys.init := by
  constructor
  · intro t ht
    exact absurd ht (Nat.not_lt_zero t)
  · intro t ht
    simp [TimerSys.init] at ht

theorem timerInv_cancel {s : TimerSys} (h : TimerInv s) : TimerInv (cancel_auto_close s) := by
  obtain ⟨h1, h2⟩ := h
  unfold cancel_auto_close
  cases hr : s.ref with
  | none => exact ⟨h1, fun t ht => h2 t ht⟩
  | some r =>
    constructor
    · intro t ht
      rcases h1 t ht with hc | hf | hq
      · exact Or.inl (List.mem_cons_of_mem r hc)
      · exact Or.inr (Or.inl hf)
      · rw [hr] at hq
        cases Option.some.inj hq
        exact Or.inl (List.mem_cons_self r s.cancelled)
    · intro t ht
      simp at ht

theorem cancel_ref_eq_none (s : TimerSys) : (cancel_auto_close s).ref = none := by
  unfold cancel_auto_close
  cases hr : s.ref with
  | none => exact hr
  | some r => rfl

theorem timerInv_sched {s : TimerSys} (holdTime : Int) (h : TimerInv s) :
    TimerInv (schedule_auto_close holdTime s) := by
  unfold schedule_auto_close
  by_cases hh : holdTime ≤ 0
  · simpa [hh] using h
  · obtain ⟨h1, h2⟩ := timerInv_cancel h
    simp only [hh, if_false]
    constructor
    · intro t ht
      have ht2 : t < (cancel_auto_close s).created + 1 := ht
      rcases Nat.lt_succ_iff_lt_or_eq.mp ht2 with ht3 | ht3
      · rcases h1 t ht3 with hc | hf | hq
        · exact Or.inl hc
        · exact Or.inr (Or.inl hf)
        · rw [cancel_ref_eq_none s] at hq
          exact Option.noConfusion hq
      · subst ht3
        exact Or.inr (Or.inr rfl)
    · intro t ht
      have h3 : (cancel_auto_close s).created = t := Option.some.inj ht
      show t < (cancel_auto_close s).created + 1
      omega

theorem timerInv_fire {s : TimerSys} (t : Nat) (avail writeOk : Bool) (h : TimerInv s) :
    TimerInv (fireTimer s t avail writeOk).1 := by
  obtain ⟨h1, h2⟩ := h
  unfold fireTimer
  by_cases hg : t < s.created ∧ t ∉ s.cancelled ∧ t ∉ s.fired
  · simp only [hg, if_true]
    constructor
    · intro u hu
      rcases h1 u hu with hc | hf | hq
      · exact Or.inl hc
      · exact Or.inr (Or.inl (List.mem_cons_of_mem t hf))
      · exact Or.inr (Or.inr hq)
    · intro u hu
      exact h2 u hu
  · simp only [hg, if_false]
    exact ⟨h1, h2⟩

theorem reachable_timerInv {s : TimerSys} (h : ReachableT s) : TimerInv s := by
  induction h with
  | init => exact timerInv_init
  | sched holdTime _ ih => exact timerInv_sched holdTime ih
  | canc _ ih => exact timerInv_cancel ih
  | fire t avail writeOk _ ih => exact timerInv_fire t avail writeOk ih

end DoorController

/-- C3.  Auto-close discipline: (1) in every reachable timer state at
most one timer is outstanding; (2) a cancelled timer never runs its
callback, so it never sends `close`; (3) arming with a positive hold
time first cancels the previously referenced timer; (4) two arms in a
row (from a fresh controller, hold time positive) leave the first timer
cancelled and the second live, the first deadline sends nothing, the
second deadline sends exactly one `close`, and both deadlines are
afterwards spent. -/
theorem auto_close_timer_discipline :
    (∀ (s : DoorController.TimerSys) (t u : Nat), DoorController.ReachableT s →
        DoorController.liveTimer s t → DoorController.liveTimer s u → t = u)
    ∧ (∀ (s : DoorController.TimerSys) (t : Nat) (avail writeOk : Bool),
        t ∈ s.cancelled → DoorController.fireTimer s t avail writeOk = (s, []))
    ∧ (∀ (s : DoorController.TimerSys) (holdTime : Int) (t : Nat), 0 < holdTime →
        s.ref = some t →
        t ∈ (DoorController.schedule_auto_close holdTime s).cancelled)
    ∧ (∀ holdTime : Int, 0 < holdTime →
        DoorController.schedule_auto_close holdTime
            (DoorController.schedule_auto_close holdTime DoorController.TimerSys.init)
          = { created := 2, cancelled := [0], fired := [], ref := some 1 }
        ∧ DoorController.fireTimer
            { created := 2, cancelled := [0], fired := [], ref := some 1 } 0 true true
          = ({ created := 2, cancelled := [0], fired := [], ref := some 1 }, [])
        ∧ DoorController.fireTimer
            { created := 2, cancelled := [0], fired := [], ref := some 1 } 1 true true
          = ({ created := 2, cancelled := [0], fired := [1], ref := some 1 }, [chars "close"])
        ∧ (DoorController.fireTimer
            { created := 2, cancelled := [0], fired := [1], ref := some 1 } 1 true true).2 = []
        ∧ (DoorController.fireTimer
            { created := 2, cancelled := [0], fired := [1], ref := some 1 } 0 true true).2
          = []) := by
  refine ⟨?_, ?_, ?_, ?_⟩
  · intro s t u hr ht hu
    obtain ⟨h1, _⟩ := DoorController.reachable_timerInv hr
    obtain ⟨ht1, ht2, ht3⟩ := ht
    obtain ⟨hu1, hu2, hu3⟩ := hu
    have et : s.ref = some t := by
      rcases h1 t ht1 with hc | hf | hq
      · exact absurd hc ht2
      · exact absurd hf ht3
      · exact hq
    have eu : s.ref = some u := by
      rcases h1 u hu1 with hc | hf | hq
      · exact absurd hc hu2
      · exact absurd hf hu3
      · exact hq
    rw [et] at eu
    exact Option.some.inj eu
  · intro s t avail writeOk hmem
    unfold DoorController.fireTimer
    rw [if_neg]
    rintro ⟨-, h2, -⟩
    exact h2 hmem
  · intro s holdTime t hh hr
    unfold DoorController.schedule_auto_close DoorController.cancel_auto_close
    rw [if_neg (by omega)]
    rw [hr]
    exact List.mem_cons_self t s.cancelled
  · intro holdTime hh
    have h1 : DoorController.schedule_auto_close holdTime DoorController.TimerSys.init
        = { created := 1, cancelled := [], fired := [], ref := some 0 } := by
      unfold DoorController.schedule_auto_close DoorController.cancel_auto_close
      rw [if_neg (by omega)]
      rfl
    have h2 : DoorController.schedule_auto_close holdTime
        { created := 1, cancelled := [], fired := [], ref := some 0 }
        = { created := 2, cancelled := [0], fired := [], ref := some 1 } := by
      unfold DoorController.schedule_auto_close DoorController.cancel_auto_close
      rw [if_neg (by omega)]
    refine ⟨by rw [h1, h2], by decide, by decide, by decide, by decide⟩

/-- Witness for the auto-close discipline theorem: the invariant and
the two-arm scenario at hold time 5; the unique live timer after two
arms is timer 1. -/
theorem auto_close_timer_discipline_witness :
    ((0 : Int) < 5
      ∧ DoorController.fireTimer
          { created := 2, cancelled := [0], fired := [], ref := some 1 } 1 true true
        = ({ created := 2, cancelled := [0], fired := [1], ref := some 1 }, [chars "close"]))
    ∧ (0 : Nat) ∈ ({ created := 2, cancelled := [0], fired := [], ref := some 1 }
        : DoorController.TimerSys).cancelled := by
  refine ⟨⟨by decide, (auto_close_timer_discipline.2.2.2 5 (by decide)).2.2.1⟩, ?_⟩
  have h := auto_close_timer_discipline.2.2.1
    (⟨1, [], [], some 0⟩ : DoorController.TimerSys) 5 0 (by decide) rfl
  have e : DoorController.schedule_auto_close 5 (⟨1, [], [], some 0⟩ : DoorController.TimerSys)
      = { created := 2, cancelled := [0], fired := [], ref := some 1 } := by decide
  rwa [e] at h

/-- C4, counterexample.  The claim uses the bare patterns of the spec
table (`door opening`, `door opened`, ...), but the code matches only
the `Inform `-prefixed forms: the line `door opened` does contain the
pattern `door opened`, yet processing it leaves the DoorState machine
in its initial Closed state instead of setting OpenHold. -/
theorem bare_door_pattern_ignored :
    containsSubL (chars "door opened") (chars "door opened") = true
    ∧ HomeTab.on_serial_line HomeTab.UIState.init (chars "door opened")
      = (HomeTab.UIState.init, [])
    ∧ (HomeTab.on_serial_line HomeTab.UIState.init (chars "door opened")).1.doorState
      = HomeTab.DoorState.closed := by
  refine ⟨by decide, by decide, by decide⟩

/-- C4, amended.  For every inbound line and every current state, the
DoorState transitions follow the `Inform `-prefixed patterns, in the
order of the `elif` chain of `_on_serial_line`: `Inform door opening`
sets Opening (and requests scheduler pause), else `Inform door opened`
sets OpenHold, else `Inform door closing` sets Closing, else
`Inform door closed` sets Closed (and requests scheduler resume); a
line containing none of the four leaves the state untouched.  On the
controller side, a line containing `Inform door opened` (and not
captured by the earlier passcode/fingerprint branches) arms the
auto-close timer exactly when `hold_time > 0`, and a line containing
`Inform door closing` or `Inform door closed` (under the same proviso)
cancels it. -/
theorem door_state_machine_amended (s : HomeTab.UIState) (cs : DoorController.CtrlState)
    (e : DoorController.Env) (line : Line) (hne : line ≠ []) :
    (containsSubL (stripL line) (chars "Inform door opening") = true →
      HomeTab.on_serial_line s line
        = ({ doorState := HomeTab.DoorState.opening, doorBusy := true },
           [HomeTab.SchedReq.pauseReq]))
    ∧ (containsSubL (stripL line) (chars "Inform door opening") = false →
       containsSubL (stripL line) (chars "Inform door opened") = true →
      HomeTab.on_serial_line s line = ({ s with doorState := HomeTab.DoorState.openHold }, []))
    ∧ (containsSubL (stripL line) (chars "Inform door opening") = false →
       containsSubL (stripL line) (chars "Inform door opened") = false →
       containsSubL (stripL line) (chars "Inform door closing") = true →
      HomeTab.on_serial_line s line = ({ s with doorState := HomeTab.DoorState.closing }, []))
    ∧ (containsSubL (stripL line) (chars "Inform door opening") = false →
       containsSubL (stripL line) (chars "Inform door opened") = false →
       containsSubL (stripL line) (chars "Inform door closing") = false →
       containsSubL (stripL line) (chars "Inform door closed") = true →
      HomeTab.on_serial_line s line
        = ({ doorState := HomeTab.DoorState.closed, doorBusy := false },
           [HomeTab.SchedReq.resumeReq]))
    ∧ (containsSubL (stripL line) (chars "Inform door opening") = false →
       containsSubL (stripL line) (chars "Inform door opened") = false →
       containsSubL (stripL line) (chars "Inform door closing") = false →
       containsSubL (stripL line) (chars "Inform door closed") = false →
      HomeTab.on_serial_line s line = (s, []))
    ∧ (startsWithL (stripL line) (chars "Inform passcode") = false →
       startsWithL (stripL line) (chars "Inform finger found") = false →
       containsSubL (stripL line) (chars "Inform finger not found") = false →
       containsSubL (stripL line) (chars "Inform door opened") = true →
      DoorController.process_line_for_logic e cs line
        = ({ cs with timers := DoorController.schedule_auto_close cs.holdTime cs.timers }, [], [])
      ∧ (cs.holdTime ≤ 0 →
          DoorController.schedule_auto_close cs.holdTime cs.timers = cs.timers)
      ∧ (0 < cs.holdTime →
          (DoorController.schedule_auto_close cs.holdTime cs.timers).ref
            = some (DoorController.cancel_auto_close cs.timers).created))
    ∧ (startsWithL (stripL line) (chars "Inform passcode") = false →
       startsWithL (stripL line) (chars "Inform finger found") = false →
       containsSubL (stripL line) (chars "Inform finger not found") = false →
       containsSubL (stripL line) (chars "Inform door opened") = false →
       (containsSubL (stripL line) (chars "Inform door closing") = true
         ∨ containsSubL (stripL line) (chars "Inform door closed") = true) →
      DoorController.process_line_for_logic e cs line
        = ({ cs with timers := DoorController.cancel_auto_close cs.timers }, [], [])) := by
  refine ⟨?_, ?_, ?_, ?_, ?_, ?_, ?_⟩
  · intro h1
    simp [HomeTab.on_serial_line, hne, h1]
  · intro h1 h2
    simp [HomeTab.on_serial_line, hne, h1, h2]
  · intro h1 h2 h3
    simp [HomeTab.on_serial_line, hne, h1, h2, h3]
  · intro h1 h2 h3 h4
    simp [HomeTab.on_serial_line, hne, h1, h2, h3, h4]
  · intro h1 h2 h3 h4
    simp [HomeTab.on_serial_line, hne, h1, h2, h3, h4]
  · intro h1 h2 h3 h4
    refine ⟨?_, ?_, ?_⟩
    · simp [DoorController.process_line_for_logic, h1, h2, h3, h4]
    · intro hht
      unfold DoorController.schedule_auto_close
      rw [if_pos hht]
    · intro hht
      unfold DoorController.schedule_auto_close
      rw [if_neg (by omega)]
  · intro h1 h2 h3 h4 h5
    rcases h5 with h5 | h5
    · simp [DoorController.process_line_for_logic, h1, h2, h3, h4, h5]
    · by_cases h6 : containsSubL (stripL line) (chars "Inform door closing") = true
      · simp [DoorController.process_line_for_logic, h1, h2, h3, h4, h6]
      · have h7 : containsSubL (stripL line) (chars "Inform door closing") = false :=
          Bool.eq_false_iff.mpr h6
        simp [DoorController.process_line_for_logic, h1, h2, h3, h4, h7, h5]

/-- Witness for the amended C4 theorem on the four concrete door
status lines and the concrete controller effects. -/
theorem door_state_machine_amended_witness :
    (HomeTab.on_serial_line HomeTab.UIState.init (chars "Inform door opening")
      = ({ doorState := HomeTab.DoorState.opening, doorBusy := true },
         [HomeTab.SchedReq.pauseReq]))
    ∧ (HomeTab.on_serial_line HomeTab.UIState.init (chars "Inform door closed")
      = ({ doorState := HomeTab.DoorState.closed, doorBusy := false },
         [HomeTab.SchedReq.resumeReq]))
    ∧ DoorController.process_line_for_logic settingsErrorEnv
        { holdTime := 5, timers := DoorController.TimerSys.init }
        (chars "Inform door opened")
      = ({ holdTime := 5,
           timers := DoorController.schedule_auto_close 5 DoorController.TimerSys.init }, [], [])
    ∧ DoorController.process_line_for_logic settingsErrorEnv
        { holdTime := 5, timers := DoorController.TimerSys.init }
        (chars "Inform door closing")
      = ({ holdTime := 5,
           timers := DoorController.cancel_auto_close DoorController.TimerSys.init }, [], []) := by
  refine ⟨?_, ?_, ?_, ?_⟩
  · exact (door_state_machine_amended HomeTab.UIState.init
      { holdTime := 5, timers := DoorController.TimerSys.init } settingsErrorEnv
      (chars "Inform door opening") (by decide)).1 (by decide)
  · exact (door_state_machine_amended HomeTab.UIState.init
      { holdTime := 5, timers := DoorController.TimerSys.init } settingsErrorEnv
      (chars "Inform door closed") (by decide)).2.2.2.1 (by decide) (by decide) (by decide)
      (by decide)
  · exact ((door_state_machine_amended HomeTab.UIState.init
      { holdTime := 5, timers := DoorController.TimerSys.init } settingsErrorEnv
      (chars "Inform door opened") (by decide)).2.2.2.2.2.1 (by decide) (by decide) (by decide)
      (by decide)).1
  · exact (door_state_machine_amended HomeTab.UIState.init
      { holdTime := 5, timers := DoorController.TimerSys.init } settingsErrorEnv
      (chars "Inform door closing") (by decide)).2.2.2.2.2.2 (by decide) (by decide) (by decide)
      (by decide) (Or.inl (by decide))

/-- C6.  In disconnected mode, `send` never raises (it returns normally
having written nothing, whatever the underlying write would do),
`is_connected` is false, and each provisioning operation returns its
failure result `Serial not connected` immediately: no command is sent
and the result does not depend on any polled line, so the operation
never waits on its timeout. -/
theorem disconnected_transport_immediate_failure (write : Except Line Unit) (line : Line)
    (lines : List Line) (pageId : Int) :
    SerialService.send SerialService.disconnected write line = Except.ok none
    ∧ SerialService.is_connected SerialService.disconnected = false
    ∧ ESPFingerprint.enroll false lines
      = ([], [ESPFingerprint.PyVal.pyBool false, ESPFingerprint.PyVal.pyNone,
              ESPFingerprint.PyVal.pyStr (chars "Serial not connected")])
    ∧ ESPFingerprint.delete false pageId lines
      = ([], [ESPFingerprint.PyVal.pyBool false,
              ESPFingerprint.PyVal.pyStr (chars "Serial not connected")])
    ∧ ESPFingerprint.delete_all false lines
      = ([], [ESPFingerprint.PyVal.pyBool false,
              ESPFingerprint.PyVal.pyStr (chars "Serial not connected")])
    ∧ ESPFingerprint.library_first_empty false lines
      = ([], [ESPFingerprint.PyVal.pyBool false, ESPFingerprint.PyVal.pyNone,
              ESPFingerprint.PyVal.pyStr (chars "Serial not connected")]) := by
  refine ⟨rfl, rfl, rfl, rfl, rfl, rfl⟩

/-- C7, counterexample.  The claim says every operation returns a
triple `(ok, extractedValue, message)`, with `(false, none, "timeout")`
on deadline.  `delete` (and `delete_all`) return a pair: on an expired
deadline with no matching line, `delete` returns exactly
`(False, "timeout")`, a 2-tuple, not the claimed 3-tuple. -/
theorem delete_returns_pair_not_triple :
    ESPFingerprint.delete true 3 []
      = ([ESPFingerprint.FpCmd.deleteCmd 3],
         [ESPFingerprint.PyVal.pyBool false, ESPFingerprint.PyVal.pyStr (chars "timeout")])
    ∧ (ESPFingerprint.delete true 3 []).2.length = 2
    ∧ (ESPFingerprint.delete true 3 []).2
      ≠ [ESPFingerprint.PyVal.pyBool false, ESPFingerprint.PyVal.pyNone,
         ESPFingerprint.PyVal.pyStr (chars "timeout")] := by
  refine ⟨by decide, by decide, by decide⟩

namespace ESPFingerprint

theorem enrollLoop_no_match (ls : List Line)
    (h : ∀ l ∈ ls, enrollSuccessLine l = false ∧ enrollErrorLine l = false) :
    enrollLoop ls = [PyVal.pyBool false, PyVal.pyNone, PyVal.pyStr (chars "timeout")] := by
  induction ls with
  | nil => rfl
  | cons l rest ih =>
    obtain ⟨hs, he⟩ := h l (List.mem_cons_self l rest)
    have ih2 := ih (fun x hx => h x (List.mem_cons_of_mem l hx))
    by_cases h1 : l = []
    · simp [enrollLoop, h1, ih2]
    · simp [enrollLoop, h1, hs, he, ih2]

theorem libraryLoop_no_match (ls : List Line)
    (h : ∀ l ∈ ls, librarySuccessLine l = false ∧ libraryErrorLine l = false) :
    libraryLoop ls = [PyVal.pyBool false, PyVal.pyNone, PyVal.pyStr (chars "timeout")] := by
  induction ls with
  | nil => rfl
  | cons l rest ih =>
    obtain ⟨hs, he⟩ := h l (List.mem_cons_self l rest)
    have ih2 := ih (fun x hx => h x (List.mem_cons_of_mem l hx))
    by_cases h1 : l = []
    · simp [libraryLoop, h1, ih2]
    · simp [libraryLoop, h1, hs, he, ih2]

theorem deleteLoop_no_match (ls : List Line)
    (h : ∀ l ∈ ls, deleteSuccessLine l = false ∧ deleteErrorLine l = false) :
    deleteLoop ls = [PyVal.pyBool false, PyVal.pyStr (chars "timeout")] := by
  induction ls with
  | nil => rfl
  | cons l rest ih =>
    obtain ⟨hs, he⟩ := h l (List.mem_cons_self l rest)
    have ih2 := ih (fun x hx => h x (List.mem_cons_of_mem l hx))
    by_cases h1 : l = []
    · simp [deleteLoop, h1, ih2]
    · simp [deleteLoop, h1, hs, he, ih2]

theorem deleteAllLoop_no_match (ls : List Line)
    (h : ∀ l ∈ ls, deleteSuccessLine l = false ∧ deleteErrorLine l = false) :
    deleteAllLoop ls = [PyVal.pyBool false, PyVal.pyStr (chars "timeout")] := by
  induction ls with
  | nil => rfl
  | cons l rest ih =>
    obtain ⟨hs, he⟩ := h l (List.mem_cons_self l rest)
    have ih2 := ih (fun x hx => h x (List.mem_cons_of_mem l hx))
    by_cases h1 : l = []
    · simp [deleteAllLoop, h1, ih2]
    · simp [deleteAllLoop, h1, hs, he, ih2]

theorem enrollLoop_length (ls : List Line) : (enrollLoop ls).length = 3 := by
  induction ls with
  | nil => rfl
  | cons l rest ih =>
    by_cases h1 : l = []
    · simp [enrollLoop, h1, ih]
    · by_cases h2 : enrollSuccessLine l = true
      · simp [enrollLoop, h1, h2]
      · by_cases h3 : enrollErrorLine l = true
        · simp [enrollLoop, h1, h2, h3]
        · simp [enrollLoop, h1, h2, h3, ih]

theorem libraryLoop_length (ls : List Line) : (libraryLoop ls).length = 3 := by
  induction ls with
  | nil => rfl
  | cons l rest ih =>
    by_cases h1 : l = []
    · simp [libraryLoop, h1, ih]
    · by_cases h2 : librarySuccessLine l = true
      · simp [libraryLoop, h1, h2]
      · by_cases h3 : libraryErrorLine l = true
        · simp [libraryLoop, h1, h2, h3]
        · simp [libraryLoop, h1, h2, h3, ih]

theorem deleteLoop_length (ls : List Line) : (deleteLoop ls).length = 2 := by
  induction ls with
  | nil => rfl
  | cons l rest ih =>
    by_cases h1 : l = []
    · simp [deleteLoop, h1, ih]
    · by_cases h2 : deleteSuccessLine l = true
      · simp [deleteLoop, h1, h2]
      · by_cases h3 : deleteErrorLine l = true
        · simp [deleteLoop, h1, h2, h3]
        · simp [deleteLoop, h1, h2, h3, ih]

theorem deleteAllLoop_length (ls : List Line) : (deleteAllLoop ls).length = 2 := by
  induction ls with
  | nil => rfl
  | cons l rest ih =>
    by_cases h1 : l = []
    · simp [deleteAllLoop, h1, ih]
    · by_cases h2 : deleteSuccessLine l = true
      · simp [deleteAllLoop, h1, h2]
      · by_cases h3 : deleteErrorLine l = true
        · simp [deleteAllLoop, h1, h2, h3]
        · simp [deleteAllLoop, h1, h2, h3, ih]

theorem ne_nil_of_enrollSuccess {l : Line} (h : enrollSuccessLine l = true) : l ≠ [] := by
  intro he
  subst he
  exact absurd h (by decide)

theorem ne_nil_of_librarySuccess {l : Line} (h : librarySuccessLine l = true) : l ≠ [] := by
  intro he
  subst he
  exact absurd h (by decide)

end ESPFingerprint

/-- C7, amended.  Connected-mode operation results: `enroll` and
`library_first_empty` return triples `(ok, extractedValue, message)`
whose value is parsed from the trailing numeric field of the matched
success response, and `(false, none, "timeout")` when no success or
failure predicate matches any polled line before the deadline;
`delete` and `delete_all` return pairs `(ok, message)` with no
extracted-value component, returning `(false, "timeout")` on the same
condition; result arities are fixed at 3, 3, 2 and 2 respectively. -/
theorem command_channel_results_amended :
    (∀ ls : List Line,
      (∀ l ∈ ls, ESPFingerprint.enrollSuccessLine l = false
        ∧ ESPFingerprint.enrollErrorLine l = false) →
      ESPFingerprint.enroll true ls
        = ([ESPFingerprint.FpCmd.enrollCmd],
           [ESPFingerprint.PyVal.pyBool false, ESPFingerprint.PyVal.pyNone,
            ESPFingerprint.PyVal.pyStr (chars "timeout")]))
    ∧ (∀ ls : List Line,
      (∀ l ∈ ls, ESPFingerprint.librarySuccessLine l = false
        ∧ ESPFingerprint.libraryErrorLine l = false) →
      ESPFingerprint.library_first_empty true ls
        = ([ESPFingerprint.FpCmd.libraryCmd],
           [ESPFingerprint.PyVal.pyBool false, ESPFingerprint.PyVal.pyNone,
            ESPFingerprint.PyVal.pyStr (chars "timeout")]))
    ∧ (∀ (ls : List Line) (pageId : Int),
      (∀ l ∈ ls, ESPFingerprint.deleteSuccessLine l = false
        ∧ ESPFingerprint.deleteErrorLine l = false) →
      ESPFingerprint.delete true pageId ls
        = ([ESPFingerprint.FpCmd.deleteCmd pageId],
           [ESPFingerprint.PyVal.pyBool false, ESPFingerprint.PyVal.pyStr (chars "timeout")])
      ∧ ESPFingerprint.delete_all true ls
        = ([ESPFingerprint.FpCmd.deleteAllCmd],
           [ESPFingerprint.PyVal.pyBool false, ESPFingerprint.PyVal.pyStr (chars "timeout")]))
    ∧ (∀ (l : Line) (rest : List Line), ESPFingerprint.enrollSuccessLine l = true →
      ESPFingerprint.enrollLoop (l :: rest)
        = [ESPFingerprint.PyVal.pyBool true, ESPFingerprint.pyOfOptInt (trailingInt l),
           ESPFingerprint.PyVal.pyStr (chars "enroll complete")])
    ∧ (∀ (l : Line) (rest : List Line), ESPFingerprint.librarySuccessLine l = true →
      ESPFingerprint.libraryLoop (l :: rest)
        = [ESPFingerprint.PyVal.pyBool true, ESPFingerprint.pyOfOptInt (trailingInt l),
           ESPFingerprint.PyVal.pyStr (chars "ok")])
    ∧ (∀ (connected : Bool) (ls : List Line) (pageId : Int),
      ((ESPFingerprint.enroll connected ls).2).length = 3
      ∧ ((ESPFingerprint.library_first_empty connected ls).2).length = 3
      ∧ ((ESPFingerprint.delete connected pageId ls).2).length = 2
      ∧ ((ESPFingerprint.delete_all connected ls).2).length = 2) := by
  refine ⟨?_, ?_, ?_, ?_, ?_, ?_⟩
  · intro ls h
    simp [ESPFingerprint.enroll, ESPFingerprint.enrollLoop_no_match ls h]
  · intro ls h
    simp [ESPFingerprint.library_first_empty, ESPFingerprint.libraryLoop_no_match ls h]
  · intro ls pageId h
    exact ⟨by simp [ESPFingerprint.delete, ESPFingerprint.deleteLoop_no_match ls h],
      by simp [ESPFingerprint.delete_all, ESPFingerprint.deleteAllLoop_no_match ls h]⟩
  · intro l rest h
    have hne := ESPFingerprint.ne_nil_of_enrollSuccess h
    simp [ESPFingerprint.enrollLoop, hne, h]
  · intro l rest h
    have hne := ESPFingerprint.ne_nil_of_librarySuccess h
    simp [ESPFingerprint.libraryLoop, hne, h]
  · intro connected ls pageId
    cases connected with
    | false => exact ⟨rfl, rfl, rfl, rfl⟩
    | true =>
      exact ⟨by simpa [ESPFingerprint.enroll] using ESPFingerprint.enrollLoop_length ls,
        by simpa [ESPFingerprint.library_first_empty] using ESPFingerprint.libraryLoop_length ls,
        by simpa [ESPFingerprint.delete] using ESPFingerprint.deleteLoop_length ls,
        by simpa [ESPFingerprint.delete_all] using ESPFingerprint.deleteAllLoop_length ls⟩

/-- Witness for the amended C7 theorem: a timed-out `enroll` over one
unrelated line, a successful `enroll` response with trailing slot 7,
and the arities at a concrete call. -/
theorem command_channel_results_amended_witness :
    ESPFingerprint.enroll true [chars "Inform keypad 5"]
      = ([ESPFingerprint.FpCmd.enrollCmd],
         [ESPFingerprint.PyVal.pyBool false, ESPFingerprint.PyVal.pyNone,
          ESPFingerprint.PyVal.pyStr (chars "timeout")])
    ∧ ESPFingerprint.enrollLoop [chars "Inform Enroll Complete, ID:7"]
      = [ESPFingerprint.PyVal.pyBool true,
         ESPFingerprint.pyOfOptInt (trailingInt (chars "Inform Enroll Complete, ID:7")),
         ESPFingerprint.PyVal.pyStr (chars "enroll complete")]
    ∧ ((ESPFingerprint.delete true 9 []).2).length = 2 :=
  ⟨command_channel_results_amended.1 [chars "Inform keypad 5"] (by decide),
   command_channel_results_amended.2.2.2.1 (chars "Inform Enroll Complete, ID:7") [] (by decide),
   (command_channel_results_amended.2.2.2.2.2 true [] 9).2.2.1⟩

namespace DoorController

/-- The data one `_handle_rx` invocation consumes: the line and the
outcome (normal return or exception) of each dispatch stage. -/
structure RxInput where
  line : Line
  logicOutcome : Except Unit Unit
  primaryPresent : Bool
  primaryOutcome : Except Unit Unit
  listenerOutcomes : List (Except Unit Unit)

/-- Dispatching a batch of consecutive inbound lines: `_handle_rx` is
invoked once per line, unconditionally. -/
def handle_rx_batch (inputs : List RxInput) : List (List RxStage) :=
  inputs.map (fun i =>
    handle_rx i.line i.logicOutcome i.primaryPresent i.primaryOutcome i.listenerOutcomes)

end DoorController

/-- C8.  For every non-empty inbound line the dispatch trace is exactly
internal logic, then the primary callback (when registered), then every
listener in registration order — independent of which stages raised; and
dispatching a batch processes every line, each line's trace independent
of the other lines' outcomes. -/
theorem rx_fanout_isolated :
    (∀ (line : Line) (o1 : Except Unit Unit) (p : Bool) (o2 : Except Unit Unit)
        (os : List (Except Unit Unit)), line ≠ [] →
      DoorController.handle_rx line o1 p o2 os
        = DoorController.RxStage.logicStage
          :: ((if p then [DoorController.RxStage.primaryStage] else [])
              ++ (List.range os.length).map DoorController.RxStage.listenerStage))
    ∧ (∀ inputs : List DoorController.RxInput,
        (DoorController.handle_rx_batch inputs).length = inputs.length)
    ∧ (∀ (pre : List DoorController.RxInput) (x : DoorController.RxInput)
        (post : List DoorController.RxInput),
      DoorController.handle_rx_batch (pre ++ x :: post)
        = DoorController.handle_rx_batch pre
          ++ DoorController.handle_rx x.line x.logicOutcome x.primaryPresent x.primaryOutcome
              x.listenerOutcomes
            :: DoorController.handle_rx_batch post) := by
  refine ⟨?_, ?_, ?_⟩
  · intro line o1 p o2 os hne
    unfold DoorController.handle_rx
    rw [if_neg hne]
  · intro inputs
    simp [DoorController.handle_rx_batch]
  · intro pre x post
    simp [DoorController.handle_rx_batch]

/-- Witness for the fan-out theorem: one concrete line whose logic
stage and first listener both raise is still delivered to all three
stages in order. -/
theorem rx_fanout_isolated_witness :
    DoorController.handle_rx (chars "Inform door opened") (Except.error ()) true
        (Except.ok ()) [Except.error (), Except.ok ()]
      = DoorController.RxStage.logicStage
        :: ((if true then [DoorController.RxStage.primaryStage] else [])
            ++ (List.range 2).map DoorController.RxStage.listenerStage) :=
  rx_fanout_isolated.1 (chars "Inform door opened") (Except.error ()) true (Except.ok ())
    [Except.error (), Except.ok ()] (by decide)

namespace RecognitionDaemon

/-- A tick whose pre-state has no PendingMatch never calls `on_hit`. -/
theorem tick_hit_none_of_no_pending (cfg : Config) (s : State) (i : TickIn)
    (hn : s.pendingName = none) : (tick cfg s i).hit = none := by
  unfold tick
  simp only [hn]
  repeat' split
  all_goals rfl

/-- A hit fired by a tick always carries the pre-state PendingMatch. -/
theorem tick_hit_from_pending (cfg : Config) (s : State) (i : TickIn) (nm : Line) (d : Int)
    (h : (tick cfg s i).hit = some (nm, d)) :
    s.pendingName = some nm ∧ d = s.pendingDist := by
  cases hnm : s.pendingName with
  | none =>
    rw [tick_hit_none_of_no_pending cfg s i hnm] at h
    exact Option.noConfusion h
  | some nm0 =>
    unfold tick at h
    simp only [hnm] at h
    revert h
    repeat' split
    all_goals intro h
    all_goals simp_all

end RecognitionDaemon

/-- C9.  `pause()` clears the PendingMatch (and pauses); `resume()`
clears the PendingMatch and both cooldown timestamps (and unpauses);
a tick run right after `pause(); resume()` fires no hit whatever the
clock says, and more generally every fired hit carries the PendingMatch
of the immediately preceding state — so a match armed before `pause()`
can never fire after `resume()`. -/
theorem pause_resume_clears_pending_match (cfg : RecognitionDaemon.Config)
    (s : RecognitionDaemon.State) (i : RecognitionDaemon.TickIn) :
    ((RecognitionDaemon.pause s).pendingName = none
      ∧ (RecognitionDaemon.pause s).paused = true)
    ∧ ((RecognitionDaemon.resume s).pendingName = none
      ∧ (RecognitionDaemon.resume s).lastMatchTs = 0
      ∧ (RecognitionDaemon.resume s).lastDenyTs = 0
      ∧ (RecognitionDaemon.resume s).paused = false)
    ∧ (RecognitionDaemon.tick cfg (RecognitionDaemon.resume (RecognitionDaemon.pause s)) i).hit
      = none
    ∧ (∀ (nm : Line) (d : Int),
        (RecognitionDaemon.tick cfg s i).hit = some (nm, d) →
        s.pendingName = some nm ∧ d = s.pendingDist) := by
  refine ⟨⟨rfl, rfl⟩, ⟨rfl, rfl, rfl, rfl⟩, ?_, ?_⟩
  · exact RecognitionDaemon.tick_hit_none_of_no_pending cfg _ i rfl
  · intro nm d h
    exact RecognitionDaemon.tick_hit_from_pending cfg s i nm d h

/-- Witness for the C9 theorem: a concrete armed state whose hold
window has elapsed still fires nothing after pause-resume. -/
theorem pause_resume_clears_pending_match_witness :
    (RecognitionDaemon.tick ⟨5000, 2000, 2000⟩
        (RecognitionDaemon.resume (RecognitionDaemon.pause
          { paused := false, lastDenyTs := 0, lastMatchTs := 1000,
            pendingName := some (chars "alice"), pendingDist := 40, pendingSince := 1000 }))
        { now := 99999, faceEnabled := Except.ok (some true), frame := true,
          recog := Except.error () }).hit = none :=
  (pause_resume_clears_pending_match ⟨5000, 2000, 2000⟩
    { paused := false, lastDenyTs := 0, lastMatchTs := 1000,
      pendingName := some (chars "alice"), pendingDist := 40, pendingSince := 1000 }
    { now := 99999, faceEnabled := Except.ok (some true), frame := true,
      recog := Except.error () }).2.2.1

/-- C10, counterexample.  The claim says every line received while an
operation is in flight is delivered to the observer twice.  If the
success line arrives first and a second line is already queued when the
loop matches, the loop returns without popping the second line, which
is therefore delivered only once (at enqueue time): with in-flight
arrivals `[enroll-success, keypad-line]`, the keypad line is delivered
exactly once. -/
theorem inflight_line_after_match_delivered_once :
    ESPFingerprint.enrollFlightDeliveries
        [chars "Inform enroll complete, ID:1", chars "Inform keypad 5"]
      = [chars "Inform enroll complete, ID:1", chars "Inform keypad 5",
         chars "Inform enroll complete, ID:1"]
    ∧ ESPFingerprint.rxAccept (chars "Inform keypad 5") = true
    ∧ (ESPFingerprint.enrollFlightDeliveries
        [chars "Inform enroll complete, ID:1", chars "Inform keypad 5"]).count
        (chars "Inform keypad 5") = 1 := by
  refine ⟨by decide, by decide, by decide⟩

namespace ESPFingerprint

theorem enrollPopped_all (q : List Line)
    (h : ∀ l ∈ q, l ≠ [] ∧ enrollSuccessLine l = false ∧ enrollErrorLine l = false) :
    enrollPopped q = q := by
  induction q with
  | nil => rfl
  | cons l rest ih =>
    obtain ⟨h1, h2, h3⟩ := h l (List.mem_cons_self l rest)
    have ih2 := ih (fun x hx => h x (List.mem_cons_of_mem l hx))
    simp [enrollPopped, h1, h2, h3, ih2]

theorem enrollPopped_until (pre : List Line) (m : Line) (rest : List Line)
    (hpre : ∀ l ∈ pre, l ≠ [] ∧ enrollSuccessLine l = false ∧ enrollErrorLine l = false)
    (hm : m ≠ []) (hmm : enrollSuccessLine m = true ∨ enrollErrorLine m = true) :
    enrollPopped (pre ++ m :: rest) = pre ++ [m] := by
  induction pre with
  | nil =>
    have hor : (enrollSuccessLine m || enrollErrorLine m) = true := by
      rcases hmm with hx | hx <;> simp [hx]
    simp [enrollPopped, hm, hor]
  | cons l pre2 ih =>
    obtain ⟨h1, h2, h3⟩ := hpre l (List.mem_cons_self l pre2)
    have ih2 := ih (fun x hx => hpre x (List.mem_cons_of_mem l hx))
    simp [enrollPopped, h1, h2, h3, ih2]

end ESPFingerprint

/-- C10, amended.  Between operations each line accepted by `_rx_line`
is delivered to the observer exactly once (dropped lines never).  While
an `enroll` is in flight, the lines the polling loop pops are delivered
twice — once at enqueue, once at pop: if no in-flight line matches a
predicate (the deadline path) the whole in-flight batch is delivered
twice, and if the queue is `pre ++ m :: post` with `m` the first
predicate-matching line, then `pre` and `m` are delivered twice while
the lines after `m` are delivered once. -/
theorem observer_delivery_counts_amended :
    (∀ (arr : List Line) (l : Line), ESPFingerprint.rxAccept l = true →
      (ESPFingerprint.rxDeliveries arr).count l = arr.count l)
    ∧ (∀ (arr : List Line) (l : Line), ESPFingerprint.rxAccept l = false →
      (ESPFingerprint.rxDeliveries arr).count l = 0)
    ∧ (∀ arr : List Line,
      (∀ l ∈ arr, ESPFingerprint.rxAccept l = true ∧ ESPFingerprint.enrollSuccessLine l = false
        ∧ ESPFingerprint.enrollErrorLine l = false) →
      ESPFingerprint.enrollFlightDeliveries arr = arr ++ arr)
    ∧ (∀ (pre : List Line) (m : Line) (post : List Line),
      (∀ l ∈ pre, ESPFingerprint.rxAccept l = true ∧ ESPFingerprint.enrollSuccessLine l = false
        ∧ ESPFingerprint.enrollErrorLine l = false) →
      ESPFingerprint.rxAccept m = true →
      (ESPFingerprint.enrollSuccessLine m = true ∨ ESPFingerprint.enrollErrorLine m = true) →
      (∀ l ∈ post, ESPFingerprint.rxAccept l = true) →
      ESPFingerprint.enrollFlightDeliveries (pre ++ m :: post)
        = (pre ++ m :: post) ++ (pre ++ [m])) := by
  have hne : ∀ l : Line, ESPFingerprint.rxAccept l = true → l ≠ [] := by
    intro l hl
    unfold ESPFingerprint.rxAccept at hl
    intro he
    subst he
    exact absurd hl (by decide)
  refine ⟨?_, ?_, ?_, ?_⟩
  · intro arr l hl
    exact List.count_filter hl
  · intro arr l hl
    refine List.count_eq_zero.mpr ?_
    intro hmem
    unfold ESPFingerprint.rxDeliveries at hmem
    rw [List.mem_filter] at hmem
    rw [hmem.2] at hl
    exact Bool.noConfusion hl
  · intro arr h
    have hfil : ESPFingerprint.rxDeliveries arr = arr :=
      List.filter_eq_self.mpr (fun l hl => (h l hl).1)
    unfold ESPFingerprint.enrollFlightDeliveries
    rw [hfil, ESPFingerprint.enrollPopped_all arr
      (fun l hl => ⟨hne l (h l hl).1, (h l hl).2.1, (h l hl).2.2⟩)]
  · intro pre m post hpre hm hmm hpost
    have hfil : ESPFingerprint.rxDeliveries (pre ++ m :: post) = pre ++ m :: post := by
      refine List.filter_eq_self.mpr ?_
      intro l hl
      rcases List.mem_append.mp hl with hl2 | hl2
      · exact (hpre l hl2).1
      · rcases List.mem_cons.mp hl2 with hl3 | hl3
        · rw [hl3]
          exact hm
        · exact hpost l hl3
    unfold ESPFingerprint.enrollFlightDeliveries
    rw [hfil, ESPFingerprint.enrollPopped_until pre m post
      (fun l hl => ⟨hne l (hpre l hl).1, (hpre l hl).2.1, (hpre l hl).2.2⟩)
      (hne m hm) hmm]

/-- Witness for the amended C10 theorem: a two-line in-flight batch
whose first line matches the enroll success predicate is delivered as
both lines once plus the popped prefix once more; a single unrelated
line between operations is delivered exactly once. -/
theorem observer_delivery_counts_amended_witness :
    ESPFingerprint.enrollFlightDeliveries
        [chars "Inform enroll complete, ID:1", chars "Inform keypad 5"]
      = ([chars "Inform enroll complete, ID:1", chars "Inform keypad 5"]
         ++ [chars "Inform enroll complete, ID:1"])
    ∧ (ESPFingerprint.rxDeliveries [chars "Inform keypad 5"]).count (chars "Inform keypad 5")
      = [chars "Inform keypad 5"].count (chars "Inform keypad 5") := by
  constructor
  · have h := observer_delivery_counts_amended.2.2.2 []
      (chars "Inform enroll complete, ID:1") [chars "Inform keypad 5"]
      (by intro l hl; cases hl) (by decide) (Or.inl (by decide))
      (by intro l hl; rw [List.mem_singleton.mp hl]; decide)
    simpa using h
  · exact observer_delivery_counts_amended.1 [chars "Inform keypad 5"]
      (chars "Inform keypad 5") (by decide)
